import Mathlib

/-!
Verification of `src/skills/iss-position/scripts/get_iss_position.py`.

The script performs one HTTP GET against a fixed URL, parses the body with
`json.loads`, checks that the `latitude` and `longitude` entries of the
resulting dict are numeric, and prints the result (or an error) in a text or
JSON format selected on the command line, returning an exit status.

The embedding below models the parsed JSON payload as an explicit value type,
the network and the JSON parse as an abstract outcome (the network itself is
outside the program), and the console as lists of printed lines on stdout and
stderr (Python `print` writes its argument followed by a newline).
-/

set_option maxRecDepth 8192

namespace Iss

/-- A Python float as it occurs in this program: a finite value or one of the
special values. `json.loads` produces finite floats from decimal literals and,
by default, `inf`/`-inf`/`nan` from the nonstandard `Infinity`/`-Infinity`/
`NaN` literals. The program performs no arithmetic on floats — values flow
from the parse to the output — so a finite float is modelled by the decimal
rational it was parsed from (Python's shortest round-trip `repr` prints that
decimal back). -/
inductive FloatVal where
  | finite (q : ℚ)
  | inf
  | negInf
  | nan
deriving DecidableEq

/-- True exactly for the finite floats (Python `math.isfinite`). -/
def FloatVal.isFinite : FloatVal → Bool
  | .finite _ => true
  | _ => false

/-- A value `json.loads` can produce: JSON null/true/false/number/string/array/
object become Python `None`/`bool`/`int` or `float`/`str`/`list`/`dict`.
A JSON number without fraction or exponent parses to `int`, otherwise to
`float`. -/
inductive JsonVal where
  | null
  | bool (b : Bool)
  | int (n : ℤ)
  | float (f : FloatVal)
  | str (s : String)
  | arr (elems : List JsonVal)
  | obj (fields : List (String × JsonVal))

/-- A parsed top-level JSON object (`payload: dict[str, Any]`), as its ordered
key/value pairs. Keys are unique (`json.loads` keeps the last duplicate while
building the dict, so the dict itself never holds two entries for one key). -/
abbrev Payload := List (String × JsonVal)

/-- Python `payload.get(k)`: the value at `k`, or `None` (here `none`) when the
key is absent. -/
def dictGet (p : Payload) (k : String) : Option JsonVal :=
  p.lookup k

/-- The smallest `k` with `den ∣ 10 ^ k`, searched up to 1200 (every IEEE
double's denominator is a power of two dividing `10 ^ 1074`). -/
def decScale (den : ℕ) : Option ℕ :=
  (List.range 1200).find? (fun k => 10 ^ k % den == 0)

/-- Left-pad a digit string with zeros to length `k`. -/
def padZeros (k : ℕ) (s : String) : String :=
  String.mk (List.replicate (k - s.length) (Char.ofNat 48)) ++ s

/-- Python `repr` of a finite float in the plain-decimal regime: the shortest
decimal expansion, with a trailing `.0` for integral values (`repr(51.0)` is
`51.0`, `repr(51.6)` is `51.6`, `repr(-0.1)` is `-0.1`). Python switches to
scientific notation only for magnitudes at or above `1e16` or below `1e-4`;
no value in this development is in that regime. The minimal scale from
`decScale` makes the last printed digit nonzero, as the shortest form has. -/
def decRepr (q : ℚ) : String :=
  let sign := if q < 0 then "-" else ""
  let a := if q < 0 then -q else q
  match decScale a.den with
  | some 0 => sign ++ toString a.num ++ ".0"
  | some (k + 1) =>
      let n := (a.num * 10 ^ (k + 1) / (a.den : ℤ)).toNat
      sign ++ toString (n / 10 ^ (k + 1)) ++ "." ++ padZeros (k + 1) (toString (n % 10 ^ (k + 1)))
  | none => sign ++ toString a.num ++ "/" ++ toString a.den

/-- Python `repr` (= `str`) of a float. -/
def pyFloatRepr : FloatVal → String
  | .finite q => decRepr q
  | .inf => "inf"
  | .negInf => "-inf"
  | .nan => "nan"

/-- The hexadecimal digit character for `n < 16` (lowercase, as Python prints). -/
def hexDigit (n : ℕ) : Char :=
  if n < 10 then Char.ofNat (48 + n) else Char.ofNat (87 + n)

/-- A `\uXXXX` escape for a code unit below `0x10000`. -/
def u16Escape (n : ℕ) : String :=
  "\\u" ++ String.mk [hexDigit (n / 4096 % 16), hexDigit (n / 256 % 16),
                      hexDigit (n / 16 % 16), hexDigit (n % 16)]

/-- How `json.dumps(..., ensure_ascii=True)` writes one character of a string:
`"`, `\`, and the control characters are escaped, characters from space to
`~` are kept, and everything else becomes `\uXXXX` (a surrogate pair above
the basic plane). -/
def jsonEscapeChar (c : Char) : String :=
  if c = Char.ofNat 34 then "\\\""
  else if c = Char.ofNat 92 then "\\\\"
  else if c = Char.ofNat 8 then "\\b"
  else if c = Char.ofNat 9 then "\\t"
  else if c = Char.ofNat 10 then "\\n"
  else if c = Char.ofNat 12 then "\\f"
  else if c = Char.ofNat 13 then "\\r"
  else if c.toNat < 32 then u16Escape c.toNat
  else if c.toNat ≤ 126 then String.singleton c
  else if c.toNat < 65536 then u16Escape c.toNat
  else u16Escape (55296 + (c.toNat - 65536) / 1024) ++ u16Escape (56320 + (c.toNat - 65536) % 1024)

/-- The body of a JSON string literal as `json.dumps` writes it. -/
def jsonEscape (s : String) : String :=
  String.join (s.toList.map jsonEscapeChar)

mutual

/-- `json.dumps(v, ensure_ascii=True)` with the default separators: a space
after each `:` and each `,` (Python uses separators `(", ", ": ")` whenever
`indent` is `None`). Floats print via `repr`; the nonstandard special values
print as `Infinity`/`-Infinity`/`NaN`. -/
def jsonRender : JsonVal → String
  | .null => "null"
  | .bool true => "true"
  | .bool false => "false"
  | .int n => toString n
  | .float f =>
      match f with
      | .finite q => decRepr q
      | .inf => "Infinity"
      | .negInf => "-Infinity"
      | .nan => "NaN"
  | .str s => "\"" ++ jsonEscape s ++ "\""
  | .arr xs => "[" ++ jsonRenderList xs ++ "]"
  | .obj kvs => "\x7b" ++ jsonRenderFields kvs ++ "\x7d"

/-- The comma-separated elements of a JSON array. -/
def jsonRenderList : List JsonVal → String
  | [] => ""
  | [x] => jsonRender x
  | x :: y :: rest => jsonRender x ++ ", " ++ jsonRenderList (y :: rest)

/-- The comma-separated `"key": value` fields of a JSON object. -/
def jsonRenderFields : List (String × JsonVal) → String
  | [] => ""
  | [(k, v)] => "\"" ++ jsonEscape k ++ "\": " ++ jsonRender v
  | (k, v) :: kv :: rest =>
      "\"" ++ jsonEscape k ++ "\": " ++ jsonRender v ++ ", " ++ jsonRenderFields (kv :: rest)

end

/-- One character of a Python string repr, escaped with the chosen quote
character `q`: backslash, the quote, and the control characters are escaped
(`\xXX` for the bare ones), everything else is kept. -/
def pyReprChar (q : Char) (c : Char) : String :=
  if c = Char.ofNat 92 then "\\\\"
  else if c = q then String.singleton (Char.ofNat 92) ++ String.singleton q
  else if c = Char.ofNat 10 then "\\n"
  else if c = Char.ofNat 13 then "\\r"
  else if c = Char.ofNat 9 then "\\t"
  else if c.toNat < 32 || c.toNat == 127 then
    "\\x" ++ String.mk [hexDigit (c.toNat / 16 % 16), hexDigit (c.toNat % 16)]
  else String.singleton c

/-- Python `repr` of a string: single-quoted, except double-quoted when the
string holds a single quote and no double quote. -/
def pyStrRepr (s : String) : String :=
  let hasSq := s.toList.contains (Char.ofNat 39)
  let hasDq := s.toList.contains (Char.ofNat 34)
  let q := if hasSq && !hasDq then Char.ofNat 34 else Char.ofNat 39
  String.singleton q ++ String.join (s.toList.map (pyReprChar q)) ++ String.singleton q

mutual

/-- Python `repr` of a value parsed from JSON: `None`, `True`/`False`, ints and
floats via their repr, strings quoted, lists in brackets and dicts in braces
with `repr` keys and values, comma-space separated. -/
def pyRepr : JsonVal → String
  | .null => "None"
  | .bool true => "True"
  | .bool false => "False"
  | .int n => toString n
  | .float f => pyFloatRepr f
  | .str s => pyStrRepr s
  | .arr xs => "[" ++ pyReprList xs ++ "]"
  | .obj kvs => "\x7b" ++ pyReprFields kvs ++ "\x7d"

/-- The comma-separated element reprs of a Python list. -/
def pyReprList : List JsonVal → String
  | [] => ""
  | [x] => pyRepr x
  | x :: y :: rest => pyRepr x ++ ", " ++ pyReprList (y :: rest)

/-- The comma-separated `key: value` entry reprs of a Python dict. -/
def pyReprFields : List (String × JsonVal) → String
  | [] => ""
  | [(k, v)] => pyStrRepr k ++ ": " ++ pyRepr v
  | (k, v) :: kv :: rest => pyStrRepr k ++ ": " ++ pyRepr v ++ ", " ++ pyReprFields (kv :: rest)

end

/-- Python `str` of a value parsed from JSON: a string is itself, everything
else prints as its `repr`. -/
def pyStr : JsonVal → String
  | .str s => s
  | v => pyRepr v

/-- `API_URL` of the script. -/
def API_URL : String :=
  "https://api.wheretheiss.at/v1/satellites/25544"

/-- `DEFAULT_REQUEST_TIMEOUT` of the script. -/
def DEFAULT_REQUEST_TIMEOUT : ℤ := 15

/-- `REQUEST_FAILURE_MESSAGE` of the script. -/
def REQUEST_FAILURE_MESSAGE : String :=
  "Failed to retrieve ISS position."

/-- `INVALID_COORDS_MESSAGE` of the script. -/
def INVALID_COORDS_MESSAGE : String :=
  "ISS API returned invalid latitude/longitude values"

/-- What the one HTTP GET plus `json.loads` delivered, abstracting the network:
the request may fail in transport (`urllib.error.URLError` or `OSError`,
covering DNS failure, connection refused/reset and timeout expiry), or return
a body that is not valid JSON (`json.JSONDecodeError`), or parse to an
object. -/
inductive FetchInput where
  | transportFail
  | badJson
  | parsed (payload : Payload)

/-- How a call of `fetch_current_position` ends: the returned `IssPosition`,
a raised `IssApiError(msg)`, or an exception the function does not catch
(`json.JSONDecodeError` from a malformed body escapes the `except` clause,
which names only `urllib.error.URLError` and `OSError`). -/
inductive FetchResult where
  | success (latitude longitude : FloatVal)
  | apiError (msg : String)
  | unhandledFault
deriving DecidableEq

/-- Python `isinstance(x, (int, float))` on `payload.get(k)`: holds for `int`
and `float`, and for `bool` — in Python `bool` is a subclass of `int` — and
fails for `None` (a missing key) and every other type. -/
def isNumericOpt : Option JsonVal → Bool
  | some (.bool _) => true
  | some (.int _) => true
  | some (.float _) => true
  | _ => false

/-- How a Python `float(x)` call ends: with a float value, or with the
`OverflowError` that `float(int)` raises when the rounded magnitude does not
fit a double. -/
inductive PyFloatOut where
  | val (f : FloatVal)
  | overflowError
deriving DecidableEq

/-- The bit length of `m`, computed with explicit fuel; `bitsAux m m` is exact
for every `m`, since the bit length of `m` is at most `m`. -/
def bitsAux : ℕ → ℕ → ℕ
  | 0, _ => 0
  | fuel + 1, m => if m = 0 then 0 else bitsAux fuel (m / 2) + 1

/-- The bit length of a natural number (`0` for `0`). -/
def bitLen (m : ℕ) : ℕ :=
  bitsAux m m

/-- Python `float(int)`: exact below `2 ^ 53`; above, the magnitude is rounded
to 53 significant bits with round-half-to-even (`float(2**53 + 1)` is
`2.0 ** 53`, `float(2**53 + 3)` is `2.0 ** 53 + 4`); when the rounded
magnitude reaches `2 ^ 1024` the conversion raises `OverflowError`
(`float(2**1024 - 2**971)` is the largest double, `float(2**1024 - 2**970)`
already raises). -/
def pyFloatOfInt (n : ℤ) : PyFloatOut :=
  let m := n.natAbs
  let b := bitLen m
  if b ≤ 53 then .val (.finite (n : ℚ))
  else
    let e := b - 53
    let q := m / 2 ^ e
    let r := m % 2 ^ e
    let half := 2 ^ (e - 1)
    let q2 := if half < r ∨ (r = half ∧ q % 2 = 1) then q + 1 else q
    let v := q2 * 2 ^ e
    if 2 ^ 1024 ≤ v then .overflowError
    else .val (.finite ((if n < 0 then -(v : ℤ) else (v : ℤ)) : ℚ))

/-- Python `float(x)` for an `x` that passed the isinstance check: a bool
coerces to `1.0`/`0.0`, an int converts by `pyFloatOfInt` (exact below
`2 ^ 53`, rounded above, `OverflowError` beyond the double range), a float
passes through unchanged. -/
def pyFloat : Option JsonVal → PyFloatOut
  | some (.bool b) => .val (.finite (if b then 1 else 0))
  | some (.int n) => pyFloatOfInt n
  | some (.float f) => .val f
  | _ => .val .nan

/-- `fetch_current_position`: transport failure raises
`IssApiError(REQUEST_FAILURE_MESSAGE)`; a body that fails to parse escapes as
an unhandled fault; otherwise the `latitude` and `longitude` entries (bound
to locals by the source) must both pass the isinstance check, else
`IssApiError(INVALID_COORDS_MESSAGE)` is raised, and the position is returned
with both values coerced by `float`. The `float` calls sit outside the try
block (and `OverflowError` is neither `URLError` nor `OSError`), so an
overflowing conversion escapes as an unhandled fault. -/
def fetch_current_position (input : FetchInput) : FetchResult :=
  match input with
  | .transportFail => .apiError REQUEST_FAILURE_MESSAGE
  | .badJson => .unhandledFault
  | .parsed payload =>
      if !isNumericOpt (dictGet payload "latitude")
          || !isNumericOpt (dictGet payload "longitude") then
        .apiError INVALID_COORDS_MESSAGE
      else
        match pyFloat (dictGet payload "latitude"), pyFloat (dictGet payload "longitude") with
        | .val lat, .val lon => .success lat lon
        | _, _ => .unhandledFault

/-- A JSON number: `json.loads` parses it to a Python `int` or `float`. -/
def isJsonNumber : JsonVal → Bool
  | .int _ => true
  | .float _ => true
  | _ => false

/-- `_success_response(position)`: the response dict, in insertion order, with
the human message built by the f-string (floats format via `str`, which for
floats equals `repr`). -/
def _success_response (latitude longitude : FloatVal) : Payload :=
  [("status", .str "success"),
   ("latitude", .float latitude),
   ("longitude", .float longitude),
   ("message", .str ("The ISS is currently at latitude " ++ pyFloatRepr latitude
      ++ " and longitude " ++ pyFloatRepr longitude ++ "."))]

/-- `_error_response(message)`. -/
def _error_response (message : String) : Payload :=
  [("status", .str "error"), ("message", .str message)]

/-- What one call of `_emit` printed: the lines written to stdout and to
stderr (`print` writes its text plus a newline; `file=sys.stderr` selects the
stream). -/
structure EmitOutput where
  stdout : List String
  stderr : List String
deriving DecidableEq

/-- How `_emit` ends: normally, or with the `KeyError` that
`payload["message"]` raises when a success-status payload has no `message`
key (no payload the program builds does). -/
inductive EmitResult where
  | ok (out : EmitOutput)
  | keyError
deriving DecidableEq

/-- `_emit(payload, output_format)`: the `json` format prints
`json.dumps(payload, ensure_ascii=True)` to stdout; any other format prints
the `message` entry to stdout when `payload.get("status") == "success"`
(equal only to the string `"success"`), and otherwise prints
`f"Error: ..."` with `payload.get("message", "Unknown error")` to stderr. -/
def _emit (payload : Payload) (output_format : String) : EmitResult :=
  if output_format = "json" then
    .ok ⟨[jsonRender (.obj payload)], []⟩
  else
    match dictGet payload "status" with
    | some (.str s) =>
        if s = "success" then
          match dictGet payload "message" with
          | some m => .ok ⟨[pyStr m], []⟩
          | none => .keyError
        else
          .ok ⟨[], ["Error: " ++ pyStr ((dictGet payload "message").getD (.str "Unknown error"))]⟩
    | _ =>
        .ok ⟨[], ["Error: " ++ pyStr ((dictGet payload "message").getD (.str "Unknown error"))]⟩

/-- How `_parse_args` ends: a parsed namespace, argparse printing help and
exiting with status 0 (`-h`/`--help`), or argparse rejecting the command line
and exiting with status 2. -/
inductive CliResult where
  | ok (format : String) (timeout : ℤ)
  | helpExit
  | argError
deriving DecidableEq

/-- The argparse parser `_parse_args` builds, over the remaining argument
tokens: `--format` with choices `text`/`json`, `--timeout` with `type=int`,
and the automatic `-h`/`--help`. An option value may follow as the next token
or be attached with `=`. Unknown arguments (the parser declares no
positionals), a missing option value, a choice outside `text`/`json` and a
non-integer timeout all make argparse exit with status 2. Argparse also
accepts unambiguous option-prefix abbreviations, and Python `int()` also
strips whitespace and allows underscores; those surface forms are not
modelled. -/
def parseTokens (format : String) (timeout : ℤ) : List String → CliResult
  | [] => .ok format timeout
  | a :: rest =>
    if a = "-h" ∨ a = "--help" then .helpExit
    else if a = "--format" then
      match rest with
      | [] => .argError
      | v :: rest2 => if v = "text" ∨ v = "json" then parseTokens v timeout rest2 else .argError
    else if a.startsWith "--format=" then
      let v := a.drop 9
      if v = "text" ∨ v = "json" then parseTokens v timeout rest else .argError
    else if a = "--timeout" then
      match rest with
      | [] => .argError
      | v :: rest2 =>
          match v.toInt? with
          | some n => parseTokens format n rest2
          | none => .argError
    else if a.startsWith "--timeout=" then
      match (a.drop 10).toInt? with
      | some n => parseTokens format n rest
      | none => .argError
    else .argError

/-- `_parse_args` on the command-line arguments, starting from the declared
defaults `--format json` and `--timeout 15`. -/
def _parse_args (argv : List String) : CliResult :=
  parseTokens "json" DEFAULT_REQUEST_TIMEOUT argv

/-- How the process ends: `SystemExit(main())` with `main`'s return value and
the lines the run printed, or an exception that no handler catches (argparse
help/usage text on the `helpExit`/`argError` paths is not reproduced, only
the exit status). -/
inductive RunResult where
  | exited (code : ℕ) (out : EmitOutput)
  | fault
deriving DecidableEq

/-- `main()` wired to the process boundary: parse the arguments (argparse
exits by itself on the help and error paths), fetch, build the success or
error payload, emit it, and return 0 or 1. An `IssApiError` is caught and
becomes the error payload; any other exception propagates. The parsed timeout
only bounds the blocking request, whose outcome `net` already abstracts. -/
def main (argv : List String) (net : FetchInput) : RunResult :=
  match _parse_args argv with
  | .helpExit => .exited 0 ⟨[], []⟩
  | .argError => .exited 2 ⟨[], []⟩
  | .ok format _timeout =>
      match fetch_current_position net with
      | .success lat lon =>
          match _emit (_success_response lat lon) format with
          | .ok out => .exited 0 out
          | .keyError => .fault
      | .apiError m =>
          match _emit (_error_response m) format with
          | .ok out => .exited 1 out
          | .keyError => .fault
      | .unhandledFault => .fault

/-- The exit status of the process: the `SystemExit` code on the normal
paths; CPython exits with status 1 after printing a traceback when an
exception reaches the top uncaught. -/
def exitCode : RunResult → ℕ
  | .exited c _ => c
  | .fault => 1

/-- The data model's Result variant (spec §3): what `main` branches on —
Success carrying the fetched position, Failure carrying the `IssApiError`
message. -/
inductive Result where
  | success (latitude longitude : FloatVal)
  | failure (message : String)

/-- The payload `main` hands to `_emit` for each Result variant. -/
def payloadOf : Result → Payload
  | .success lat lon => _success_response lat lon
  | .failure m => _error_response m

/-- C1 counterexample: the claim fails for a boolean coordinate. For the
payload with latitude `true` and longitude `0`, fetch does NOT return the
claimed Failure — `isinstance(True, (int, float))` holds because Python bool
is an int subclass, so fetch returns Success with latitude `float(True) =
1.0`. -/
theorem c1_bool_accepted :
    fetch_current_position (.parsed [("latitude", .bool true), ("longitude", .int 0)])
        = .success (.finite 1) (.finite 0) ∧
      fetch_current_position (.parsed [("latitude", .bool true), ("longitude", .int 0)])
        ≠ .apiError INVALID_COORDS_MESSAGE := by
  constructor
  · rfl
  · decide

/-- C1 (amended): for every parsed payload in which the latitude or longitude
key is missing, or in which either value is a string or null, fetch returns
Failure with exactly the fixed message `INVALID_COORDS_MESSAGE`. (The
original claim also listed booleans, but a boolean passes the
`isinstance(x, (int, float))` check — Python bool is an int subclass — and is
accepted, coerced to `1.0`/`0.0`.) -/
theorem c1_invalid_coords (payload : Payload)
    (h : dictGet payload "latitude" = none ∨ dictGet payload "longitude" = none ∨
         (∃ s, dictGet payload "latitude" = some (.str s)) ∨
         (∃ s, dictGet payload "longitude" = some (.str s)) ∨
         dictGet payload "latitude" = some .null ∨
         dictGet payload "longitude" = some .null) :
    fetch_current_position (.parsed payload) = .apiError INVALID_COORDS_MESSAGE := by
  rcases h with h | h | ⟨s, h⟩ | ⟨s, h⟩ | h | h <;>
    simp [fetch_current_position, h, isNumericOpt]

/-- C1 witness: a payload missing the latitude key is rejected with the fixed
message. -/
theorem c1_invalid_coords_witness :
    fetch_current_position (.parsed [("longitude", .int 3)]) = .apiError INVALID_COORDS_MESSAGE :=
  c1_invalid_coords [("longitude", .int 3)] (Or.inl rfl)

/-- C2 counterexample: the claim fails for a numeric payload whose int does
not fit a double. A 401-digit JSON integer parses to a Python int that passes
the isinstance check, but `float()` on it — outside the try block, and an
`OverflowError` is neither `URLError` nor `OSError` — raises an unhandled
OverflowError, so fetch neither returns Success nor Failure. -/
theorem c2_overflow_unhandled :
    fetch_current_position (.parsed [("latitude", .int (10 ^ 400)), ("longitude", .int 0)])
        = .unhandledFault ∧
      (∀ lat lon,
        fetch_current_position (.parsed [("latitude", .int (10 ^ 400)), ("longitude", .int 0)])
          ≠ .success lat lon) := by
  have h0 : fetch_current_position (.parsed [("latitude", .int (10 ^ 400)), ("longitude", .int 0)])
      = .unhandledFault := by decide
  exact ⟨h0, fun lat lon h => by rw [h0] at h; exact FetchResult.noConfusion h⟩

/-- C2 (amended): for every parsed payload whose latitude and longitude
values are both JSON numbers (Python int or float), and whose `float`
coercions do not overflow — every float, and every int whose rounded
magnitude stays below `2 ^ 1024`, in particular every int of coordinate
magnitude — fetch returns Success carrying exactly `float(latitude)` and
`float(longitude)` (ints beyond `2 ^ 53` rounded to the nearest double) and
neither raises nor returns Failure. An int so large that `float()` overflows
instead escapes fetch as an unhandled OverflowError. -/
theorem c2_numeric_success (payload : Payload) (lv gv : JsonVal) (flat flon : FloatVal)
    (hlat : dictGet payload "latitude" = some lv)
    (hlon : dictGet payload "longitude" = some gv)
    (hlv : isJsonNumber lv = true) (hgv : isJsonNumber gv = true)
    (hflat : pyFloat (some lv) = .val flat) (hflon : pyFloat (some gv) = .val flon) :
    fetch_current_position (.parsed payload) = .success flat flon := by
  cases lv <;> cases gv <;>
    simp_all [fetch_current_position, hlat, hlon, isJsonNumber, isNumericOpt]

/-- C2 witness: an int latitude `10` (exact conversion) and a float longitude
`-0.1` come back as the floats `10.0` and `-0.1`. -/
theorem c2_numeric_success_witness :
    fetch_current_position
        (.parsed [("latitude", .int 10), ("longitude", .float (.finite (mkRat (-1) 10)))])
      = .success (.finite ((10 : ℤ) : ℚ)) (.finite (mkRat (-1) 10)) :=
  c2_numeric_success [("latitude", .int 10), ("longitude", .float (.finite (mkRat (-1) 10)))]
    (.int 10) (.float (.finite (mkRat (-1) 10)))
    (.finite ((10 : ℤ) : ℚ)) (.finite (mkRat (-1) 10)) rfl rfl rfl rfl rfl rfl

/-- C3: a transport-layer failure of the HTTP GET (the `except` clause catches
`urllib.error.URLError` and `OSError`: network failure, DNS failure,
connection reset, timeout expiry) makes fetch return Failure with exactly the
fixed message `REQUEST_FAILURE_MESSAGE`; no payload is involved (the body was
never read). -/
theorem c3_transport_failure :
    fetch_current_position .transportFail = .apiError REQUEST_FAILURE_MESSAGE := rfl

/-- C6 counterexample: the claim that a successful fetch never carries a
non-finite coordinate fails. Python's `json.loads` accepts the nonstandard
`Infinity` literal by default and produces `float("inf")`, which passes the
isinstance check, so fetch returns Success carrying an infinite latitude. -/
theorem c6_infinity_accepted :
    fetch_current_position (.parsed [("latitude", .float .inf), ("longitude", .int 0)])
        = .success .inf (.finite 0) ∧
      FloatVal.isFinite .inf = false := ⟨rfl, rfl⟩

/-- C6 (amended): a successful fetch carries the payload's float values as-is,
with no validation beyond the isinstance check: values outside
[-90,90]/[-180,180] are accepted, and so are the non-finite floats
`inf`/`-inf`/`nan` (reachable through the `Infinity`/`-Infinity`/`NaN`
literals Python's JSON parser accepts by default) — no finiteness invariant
is enforced. -/
theorem c6_accepts_any_float (f g : FloatVal) :
    fetch_current_position (.parsed [("latitude", .float f), ("longitude", .float g)])
      = .success f g := rfl

/-- C7: when the HTTP request succeeds but the body is not valid JSON, the
`json.JSONDecodeError` escapes fetch as an unhandled fault: fetch neither
returns a position nor raises `IssApiError`, so neither fixed error message
is produced. -/
theorem c7_malformed_json_unhandled :
    fetch_current_position .badJson = .unhandledFault ∧
      (∀ m, fetch_current_position .badJson ≠ .apiError m) ∧
      (∀ lat lon, fetch_current_position .badJson ≠ .success lat lon) := by
  refine ⟨rfl, fun m h => ?_, fun lat lon h => ?_⟩ <;>
    simp [fetch_current_position] at h

/-- Emitting a success payload never raises, for any format: the json branch
prints the dump, any other format finds status `"success"` and prints the
message, which `_success_response` always provides. -/
theorem emit_success_ok (lat lon : FloatVal) (fmt : String) :
    _emit (_success_response lat lon) fmt
      = .ok (if fmt = "json" then ⟨[jsonRender (.obj (_success_response lat lon))], []⟩
             else ⟨["The ISS is currently at latitude " ++ pyFloatRepr lat
                      ++ " and longitude " ++ pyFloatRepr lon ++ "."], []⟩) := by
  by_cases h : fmt = "json"
  · rw [if_pos h]
    unfold _emit
    rw [if_pos h]
  · rw [if_neg h]
    unfold _emit
    rw [if_neg h]
    rfl

/-- Emitting an error payload never raises, for any format: the json branch
prints the dump, any other format finds status `"error"` and prints the
error line to stderr. -/
theorem emit_error_ok (m : String) (fmt : String) :
    _emit (_error_response m) fmt
      = .ok (if fmt = "json" then ⟨[jsonRender (.obj (_error_response m))], []⟩
             else ⟨[], ["Error: " ++ m]⟩) := by
  by_cases h : fmt = "json"
  · rw [if_pos h]
    unfold _emit
    rw [if_pos h]
  · rw [if_neg h]
    unfold _emit
    rw [if_neg h]
    rfl

/-- A run whose arguments argparse rejects exits with status 2 before any
fetch. -/
theorem main_parse_error (argv : List String) (net : FetchInput)
    (hp : _parse_args argv = .argError) :
    main argv net = .exited 2 ⟨[], []⟩ := by
  unfold main
  rw [hp]

/-- A run asking for help exits with status 0 before any fetch. -/
theorem main_help (argv : List String) (net : FetchInput)
    (hp : _parse_args argv = .helpExit) :
    main argv net = .exited 0 ⟨[], []⟩ := by
  unfold main
  rw [hp]

/-- A run whose fetch succeeds emits the success payload and exits with
status 0. -/
theorem main_success (argv : List String) (net : FetchInput) (fmt : String) (t : ℤ)
    (lat lon : FloatVal)
    (hp : _parse_args argv = .ok fmt t)
    (h : fetch_current_position net = .success lat lon) :
    main argv net
      = .exited 0 (if fmt = "json" then ⟨[jsonRender (.obj (_success_response lat lon))], []⟩
                   else ⟨["The ISS is currently at latitude " ++ pyFloatRepr lat
                           ++ " and longitude " ++ pyFloatRepr lon ++ "."], []⟩) := by
  unfold main
  rw [hp, h]
  show (match _emit (_success_response lat lon) fmt with
        | .ok out => RunResult.exited 0 out
        | .keyError => RunResult.fault) = _
  rw [emit_success_ok]

/-- A run whose fetch raises `IssApiError` emits the error payload and exits
with status 1. -/
theorem main_apiError (argv : List String) (net : FetchInput) (m : String) (fmt : String) (t : ℤ)
    (hp : _parse_args argv = .ok fmt t)
    (h : fetch_current_position net = .apiError m) :
    main argv net
      = .exited 1 (if fmt = "json" then ⟨[jsonRender (.obj (_error_response m))], []⟩
                   else ⟨[], ["Error: " ++ m]⟩) := by
  unfold main
  rw [hp, h]
  show (match _emit (_error_response m) fmt with
        | .ok out => RunResult.exited 1 out
        | .keyError => RunResult.fault) = _
  rw [emit_error_ok]

/-- A run whose fetch ends in an unhandled fault crashes: the exception
propagates out of `main`. -/
theorem main_unhandled (argv : List String) (net : FetchInput) (fmt : String) (t : ℤ)
    (hp : _parse_args argv = .ok fmt t)
    (h : fetch_current_position net = .unhandledFault) :
    main argv net = .fault := by
  unfold main
  rw [hp, h]

/-- C4 counterexample: the claimed byte sequence is wrong. A run with the
json format on the position (51.6, -0.1) prints the `json.dumps` rendering,
which uses Python's default separators — a space after every colon and
comma — so the printed line differs from the claim's compact byte
sequence. -/
theorem c4_exact_bytes_refuted :
    main ["--format", "json"]
        (.parsed [("latitude", .float (.finite (mkRat 258 5))), ("longitude", .float (.finite (mkRat (-1) 10)))])
        = .exited 0 ⟨["\x7b\"status\": \"success\", \"latitude\": 51.6, \"longitude\": -0.1, \"message\": \"The ISS is currently at latitude 51.6 and longitude -0.1.\"\x7d"], []⟩ ∧
      ("\x7b\"status\": \"success\", \"latitude\": 51.6, \"longitude\": -0.1, \"message\": \"The ISS is currently at latitude 51.6 and longitude -0.1.\"\x7d" : String)
        ≠ "\x7b\"status\":\"success\",\"latitude\":51.6,\"longitude\":-0.1,\"message\":\"The ISS is currently at latitude 51.6 and longitude -0.1.\"\x7d" := by
  constructor
  · decide
  · decide

/-- C4 (amended): emitting Success(51.6, -0.1) in the json format prints to
stdout exactly the line
`\x7b"status": "success", "latitude": 51.6, "longitude": -0.1, "message": "The ISS is currently at latitude 51.6 and longitude -0.1."\x7d`
— the keys in that order, with `json.dumps`'s default separators placing a
space after each colon and comma — nothing to stderr, and the process exit
code is 0. -/
theorem c4_json_success_output :
    main ["--format", "json"]
        (.parsed [("latitude", .float (.finite (mkRat 258 5))), ("longitude", .float (.finite (mkRat (-1) 10)))])
      = .exited 0 ⟨["\x7b\"status\": \"success\", \"latitude\": 51.6, \"longitude\": -0.1, \"message\": \"The ISS is currently at latitude 51.6 and longitude -0.1.\"\x7d"], []⟩ := by
  decide

/-- C5: for every failure message m, the text format writes exactly
`Error: m` to stderr (and nothing to stdout), the json format writes exactly
the `json.dumps` serialization of the two-key object
`\x7b"status": "error", "message": m\x7d` to stdout (and nothing to stderr),
and in both formats a run whose fetch failed with message m exits with
status 1. -/
theorem c5_failure_emit (m : String) :
    _emit (_error_response m) "text" = .ok ⟨[], ["Error: " ++ m]⟩ ∧
    _emit (_error_response m) "json"
      = .ok ⟨[jsonRender (.obj [("status", .str "error"), ("message", .str m)])], []⟩ ∧
    (∀ net, fetch_current_position net = .apiError m →
      exitCode (main ["--format", "text"] net) = 1 ∧
      exitCode (main ["--format", "json"] net) = 1) := by
  refine ⟨rfl, rfl, fun net h => ⟨?_, ?_⟩⟩
  · rw [main_apiError ["--format", "text"] net m "text" DEFAULT_REQUEST_TIMEOUT rfl h]
    rfl
  · rw [main_apiError ["--format", "json"] net m "json" DEFAULT_REQUEST_TIMEOUT rfl h]
    rfl

/-- C5 witness: at the concrete message `"x"` and a transport failure, the
two formats print the fixed serializations and the runs exit with status 1. -/
theorem c5_failure_emit_witness :
    (_emit (_error_response "x") "text" = .ok ⟨[], ["Error: x"]⟩ ∧
      _emit (_error_response "x") "json"
        = .ok ⟨[jsonRender (.obj [("status", .str "error"), ("message", .str "x")])], []⟩) ∧
    jsonRender (.obj [("status", .str "error"), ("message", .str "x")])
        = "\x7b\"status\": \"error\", \"message\": \"x\"\x7d" ∧
    exitCode (main ["--format", "text"] .transportFail) = 1 :=
  ⟨⟨(c5_failure_emit "x").1, (c5_failure_emit "x").2.1⟩, by decide,
    ((c5_failure_emit REQUEST_FAILURE_MESSAGE).2.2 .transportFail rfl).1⟩

/-- C8 counterexample: a run whose command line argparse rejects (an invalid
`--format` choice) terminates with exit status 2 — neither 0 nor 1 — so the
claim that no run terminates with any other exit code fails. -/
theorem c8_argparse_exit_two :
    exitCode (main ["--format", "xml"] .transportFail) = 2 ∧
      (2 : ℕ) ≠ 0 ∧ (2 : ℕ) ≠ 1 := by
  refine ⟨?_, by decide, by decide⟩
  rw [main_parse_error ["--format", "xml"] .transportFail rfl]
  rfl

/-- C8 (amended): once argparse accepts the command line, the exit status is
0 when fetch succeeds and 1 on any failure (a raised `IssApiError` or an
uncaught fault); a `--help` run exits with status 0; but a command line
argparse rejects terminates the process with exit status 2 before any fetch,
and every run ends with status 0, 1 or 2. -/
theorem c8_exit_codes (argv : List String) (net : FetchInput) :
    (exitCode (main argv net) = 0 ∨ exitCode (main argv net) = 1
        ∨ exitCode (main argv net) = 2) ∧
    (_parse_args argv = .argError → exitCode (main argv net) = 2) ∧
    (_parse_args argv = .helpExit → exitCode (main argv net) = 0) ∧
    (∀ fmt t, _parse_args argv = .ok fmt t →
      ((∃ lat lon, fetch_current_position net = .success lat lon) →
          exitCode (main argv net) = 0) ∧
      ((∀ lat lon, fetch_current_position net ≠ .success lat lon) →
          exitCode (main argv net) = 1)) := by
  have core : ∀ fmt t, _parse_args argv = .ok fmt t →
      ((∃ lat lon, fetch_current_position net = .success lat lon) →
          exitCode (main argv net) = 0) ∧
      ((∀ lat lon, fetch_current_position net ≠ .success lat lon) →
          exitCode (main argv net) = 1) := by
    intro fmt t hp
    constructor
    · rintro ⟨lat, lon, hf⟩
      rw [main_success argv net fmt t lat lon hp hf]
      rfl
    · intro hne
      cases hf : fetch_current_position net with
      | success lat lon => exact absurd hf (hne lat lon)
      | apiError m => rw [main_apiError argv net m fmt t hp hf]; rfl
      | unhandledFault => rw [main_unhandled argv net fmt t hp hf]; rfl
  refine ⟨?_, fun hp => ?_, fun hp => ?_, core⟩
  · cases hp : _parse_args argv with
    | helpExit => exact Or.inl (by rw [main_help argv net hp]; rfl)
    | argError => exact Or.inr (Or.inr (by rw [main_parse_error argv net hp]; rfl))
    | ok fmt t =>
        cases hf : fetch_current_position net with
        | success lat lon =>
            exact Or.inl (by rw [main_success argv net fmt t lat lon hp hf]; rfl)
        | apiError m =>
            exact Or.inr (Or.inl (by rw [main_apiError argv net m fmt t hp hf]; rfl))
        | unhandledFault =>
            exact Or.inr (Or.inl (by rw [main_unhandled argv net fmt t hp hf]; rfl))
  · rw [main_parse_error argv net hp]
    rfl
  · rw [main_help argv net hp]
    rfl

/-- C9: for every Result and for each of the two formats, emit writes to
stderr exactly in the single case of a Failure with the text format — and in
that case nothing goes to stdout; in every other case stderr receives
nothing, so everything printed goes to stdout. -/
theorem c9_stderr_only_text_failure (r : Result) (fmt : String)
    (hf : fmt = "text" ∨ fmt = "json") :
    ∃ out, _emit (payloadOf r) fmt = .ok out ∧
      (out.stderr ≠ [] ↔ fmt = "text" ∧ ∃ m, r = .failure m) ∧
      ((fmt = "text" ∧ ∃ m, r = .failure m) → out.stdout = []) := by
  rcases r with ⟨lat, lon⟩ | ⟨m⟩
  · refine ⟨_, emit_success_ok lat lon fmt, ?_, ?_⟩
    · rcases hf with rfl | rfl <;> simp
    · rintro ⟨rfl, m, hm⟩
      exact absurd hm (by simp)
  · rcases hf with rfl | rfl
    · refine ⟨⟨[], ["Error: " ++ m]⟩, emit_error_ok m "text", ?_, fun _ => rfl⟩
      simp
    · refine ⟨⟨[jsonRender (.obj (_error_response m))], []⟩, emit_error_ok m "json", ?_, ?_⟩
      · simp
      · rintro ⟨h, -⟩
        exact absurd h (by decide)

/-- C9 witness: emitting Failure("x") in the text format writes only to
stderr. -/
theorem c9_stderr_witness :
    ∃ out, _emit (payloadOf (.failure "x")) "text" = .ok out ∧
      (out.stderr ≠ [] ↔ ("text" : String) = "text" ∧ ∃ m, Result.failure "x" = .failure m) ∧
      ((("text" : String) = "text" ∧ ∃ m, Result.failure "x" = .failure m) → out.stdout = []) :=
  c9_stderr_only_text_failure (.failure "x") "text" (Or.inl rfl)

/-- C10: the text branch of emit is total on payloads without success status:
for every payload whose status value is not the string `"success"` (including
a missing status key), the text format prints `Error: ` followed by the
message value — `Unknown error` standing in when the message key is absent —
to stderr, prints nothing to stdout, and raises no lookup error. -/
theorem c10_text_error_total (payload : Payload)
    (h : dictGet payload "status" ≠ some (.str "success")) :
    _emit payload "text"
      = .ok ⟨[], ["Error: " ++ pyStr ((dictGet payload "message").getD (.str "Unknown error"))]⟩ := by
  unfold _emit
  rw [if_neg (by decide : ¬ (("text" : String) = "json"))]
  cases hs : dictGet payload "status" with
  | none => rfl
  | some v =>
      cases v with
      | str s =>
          have hne : ¬ (s = "success") := fun e => h (e ▸ hs)
          simp [hne]
      | null => rfl
      | bool b => rfl
      | int n => rfl
      | float f => rfl
      | arr xs => rfl
      | obj kvs => rfl

/-- C10 witness: the empty payload has no success status and no message key,
so the text format prints the default `Error: Unknown error` line to
stderr. -/
theorem c10_text_error_total_witness :
    _emit [] "text"
      = .ok ⟨[], ["Error: " ++ pyStr ((dictGet [] "message").getD (.str "Unknown error"))]⟩ :=
  c10_text_error_total [] (fun h => Option.noConfusion h)

end Iss
